import Mathlib

/-!
Verification development for the agent-scholar Cross-Library Analysis Engine.

The repository ships the CDK infrastructure for the engine: the
`CrossLibraryAnalysisConstruct` (IAM role, Lambda function configuration, and
the OpenAPI action-group schema that declares the request and response shapes).
The Python analysis engine itself (`analysis_engine.lambda_handler`, asset
directory `src/lambda/cross-library-analysis`) is not part of the repository
snapshot, so the algorithmic components (statement extraction, theme
clustering, contradiction detection, perspective analysis, orchestration) are
modelled here from the specification, while the construct configuration and
the API schema are embedded directly from the TypeScript source.

Real-valued scores are modelled as rationals.
-/

namespace AgentScholar

/-! ## Infrastructure embedding (from `CrossLibraryAnalysisConstruct`) -/

/-- Effect of an IAM policy statement (`iam.Effect`). -/
inductive Effect where
  | allow
  | deny
deriving DecidableEq

/-- An IAM policy statement (`iam.PolicyStatement`). -/
structure PolicyStatement where
  effect : Effect
  actions : List String
  resources : List String
deriving DecidableEq

/-- An IAM policy document (`iam.PolicyDocument`). -/
structure PolicyDocument where
  statements : List PolicyStatement
deriving DecidableEq

/-- An IAM role as configured by the construct (`iam.Role`). -/
structure RoleModel where
  assumedBy : String
  managedPolicies : List String
  inlinePolicies : List (String × PolicyDocument)
deriving DecidableEq

/-- Props of `CrossLibraryAnalysisConstruct` (from the source interface
`CrossLibraryAnalysisConstructProps`). -/
structure CrossLibraryAnalysisConstructProps where
  opensearchEndpoint : String
  indexName : String

/-- A Lambda function configuration (`lambda.Function` props). -/
structure LambdaFunctionConfig where
  runtime : String
  handler : String
  codeAsset : String
  timeoutSeconds : Nat
  memorySize : Nat
  functionName : String
  environment : List (String × String)

/-- The value of `cdk.Duration.minutes n` measured in seconds. -/
def durationMinutesInSeconds (n : Nat) : Nat := 60 * n

/-- The IAM role created at lines 20-53 of the construct: assumed by Lambda,
one managed policy, and two inline policies (OpenSearchAccess with the single
action aoss:APIAccessAll, CloudWatchLogs with the three log actions scoped to
the function log group). `region` and `account` are the stack environment. -/
def mkAnalysisRole (region account : String) : RoleModel :=
  { assumedBy := "lambda.amazonaws.com"
    managedPolicies := ["service-role/AWSLambdaBasicExecutionRole"]
    inlinePolicies :=
      [ ("OpenSearchAccess",
          { statements :=
              [ { effect := Effect.allow
                  actions := ["aoss:APIAccessAll"]
                  resources := ["*"] } ] })
      , ("CloudWatchLogs",
          { statements :=
              [ { effect := Effect.allow
                  actions :=
                    [ "logs:CreateLogGroup"
                    , "logs:CreateLogStream"
                    , "logs:PutLogEvents" ]
                  resources :=
                    [ "arn:aws:logs:" ++ region ++ ":" ++ account ++
                      ":log-group:/aws/lambda/agent-scholar-cross-library-analysis*" ] } ] }) ] }

/-- The analysis Lambda function created at lines 70-86 of the construct:
Python 3.11 runtime, handler analysis_engine.lambda_handler, a 10 minute
timeout and 1024 MB of memory. -/
def mkAnalysisFunction (props : CrossLibraryAnalysisConstructProps)
    (region : String) : LambdaFunctionConfig :=
  { runtime := "python3.11"
    handler := "analysis_engine.lambda_handler"
    codeAsset := "src/lambda/cross-library-analysis"
    timeoutSeconds := durationMinutesInSeconds 10
    memorySize := 1024
    functionName := "agent-scholar-cross-library-analysis"
    environment :=
      [ ("OPENSEARCH_ENDPOINT", props.opensearchEndpoint)
      , ("INDEX_NAME", props.indexName)
      , ("AWS_REGION", region)
      , ("PYTHONPATH", "/opt/python:/var/runtime") ] }

/-- The set of API actions that the two inline policies of the analysis role
may grant. -/
def analysisRoleAllowedActions : List String :=
  [ "aoss:APIAccessAll"
  , "logs:CreateLogGroup"
  , "logs:CreateLogStream"
  , "logs:PutLogEvents" ]

/-! ## API schema constants (from `createActionGroupConfig`, lines 145-167) -/

/-- The `enum` of the `analysis_type` property in the action-group OpenAPI
schema. -/
def analysisTypeEnum : List String :=
  ["comprehensive", "themes", "contradictions", "perspectives"]

/-- The `minimum` of the `max_documents` property in the schema. -/
def maxDocumentsMinimum : Nat := 1

/-- The `maximum` of the `max_documents` property in the schema. -/
def maxDocumentsMaximum : Nat := 100

/-- The `default` of the `max_documents` property in the schema. -/
def maxDocumentsDefault : Nat := 20

/-! ## Data model (spec section 3) -/

/-- A retrieved document. -/
structure Document where
  id : String
  title : String
  author : String
  full_text : String
deriving DecidableEq

/-- Sentiment polarity of a statement. -/
inductive Polarity where
  | positive
  | neutral
  | negative
deriving DecidableEq

/-- Certainty tag of a statement. -/
inductive Certainty where
  | hedged
  | assertive
deriving DecidableEq

/-- A sentence-level claim unit with source attribution. -/
structure Statement where
  document_id : String
  text : String
  polarity : Polarity
  certainty : Certainty
deriving DecidableEq

/-- An aggregated theme. -/
structure Theme where
  label : String
  frequency : Nat
  document_frequency : Nat
  relevance_score : ℚ
deriving DecidableEq

/-- A theme cluster. -/
structure ThemeCluster where
  cluster_name : String
  member_theme_labels : List String
  size : Nat
deriving DecidableEq

/-- A reported contradiction between a statement of document a and a
statement of document b, stored with a canonical ordering. -/
structure ContradictionPair where
  doc_a_id : String
  doc_a_title : String
  statement_a : String
  doc_b_id : String
  doc_b_title : String
  statement_b : String
  confidence_score : ℚ
  contradiction_type : String
deriving DecidableEq

/-! ## Request validation (spec sections 4.6 and 7, orchestrator VALIDATING)

Modelled from the spec: the orchestrator of `analysis_engine.lambda_handler`
is not in the repository snapshot; its VALIDATING stage is modelled from the
spec against the enum and bounds that the construct declares in its
action-group schema. -/

/-- An incoming analysis request (fields of the action-group schema). -/
structure AnalysisRequest where
  analysis_type : String
  query : Option String
  document_ids : Option String
  max_documents : Option Nat

/-- Modelled from the spec: the error taxonomy entry ValidationError (bad
analysis_type, out-of-range max_documents). -/
inductive ValidationError where
  | invalidAnalysisType (t : String)
  | invalidMaxDocuments (m : Nat)
deriving DecidableEq

/-- A validated request: the analysis type together with the effective
`max_documents` bound. -/
structure ValidRequest where
  analysis_type : String
  max_documents : Nat
deriving DecidableEq

/-- Modelled from the spec: the VALIDATING stage of the orchestrator (not in
the snapshot). Checks `analysis_type` against the schema enum and
`max_documents` against the schema bounds; an omitted `max_documents` takes
the schema default. -/
def validateRequest (r : AnalysisRequest) : Except ValidationError ValidRequest :=
  if r.analysis_type ∈ analysisTypeEnum then
    match r.max_documents with
    | none => Except.ok ⟨r.analysis_type, maxDocumentsDefault⟩
    | some m =>
      if maxDocumentsMinimum ≤ m ∧ m ≤ maxDocumentsMaximum then
        Except.ok ⟨r.analysis_type, m⟩
      else
        Except.error (ValidationError.invalidMaxDocuments m)
  else
    Except.error (ValidationError.invalidAnalysisType r.analysis_type)

/-! ## Theme extraction, aggregation and clustering (spec section 4.2)

Modelled from the spec: the theme extractor and clusterer of
`analysis_engine.lambda_handler` are not in the repository snapshot. The
per-document candidate extraction (n-grams after stop word removal) is an
injected extractor producing (label, local frequency) pairs per document;
aggregation, the `min_theme_frequency` filter, relevance scoring and the
greedy threshold clustering are modelled from the spec text. -/

/-- Per-document candidate themes: the document id together with its
(label, local frequency) pairs. -/
abbrev DocThemes := String × List (String × Nat)

/-- All distinct theme labels appearing in the batch. -/
def batchLabels (input : List DocThemes) : List String :=
  (input.flatMap (fun d => d.2.map Prod.fst)).dedup

/-- Summed local frequency of a label across the batch. -/
def themeFrequency (input : List DocThemes) (lbl : String) : Nat :=
  (input.map (fun d => ((d.2.filter (fun p => p.1 = lbl)).map Prod.snd).sum)).sum

/-- Number of distinct documents of the batch containing the label. -/
def themeDocFrequency (input : List DocThemes) (lbl : String) : Nat :=
  (input.filter (fun d => d.2.any (fun p => p.1 = lbl))).length

/-- Modelled from the spec: relevance combines frequency and document
frequency with document frequency weighted higher; the spec leaves the exact
coefficients tunable, so the weight 2 on document frequency is a
representative choice. -/
def relevanceScore (freq docFreq : Nat) : ℚ :=
  ((2 * docFreq + freq : Nat) : ℚ)

/-- Aggregate the batch into one `Theme` per distinct label. -/
def aggregateThemes (input : List DocThemes) : List Theme :=
  (batchLabels input).map (fun lbl =>
    { label := lbl
      frequency := themeFrequency input lbl
      document_frequency := themeDocFrequency input lbl
      relevance_score := relevanceScore (themeFrequency input lbl) (themeDocFrequency input lbl) })

/-- Descending relevance order used before reporting and clustering. -/
def byRelevanceDesc (a b : Theme) : Prop :=
  b.relevance_score ≤ a.relevance_score

instance : DecidableRel byRelevanceDesc := fun a b =>
  inferInstanceAs (Decidable (b.relevance_score ≤ a.relevance_score))

/-- Sort themes by relevance score descending (the determinism mechanism the
spec prescribes for clustering, and the reporting order of top themes). -/
def sortThemesByRelevance (ts : List Theme) : List Theme :=
  ts.insertionSort byRelevanceDesc

/-- Modelled from the spec: aggregate, drop themes whose document frequency
is below `minFreq`, sort by relevance descending and keep the best `topN`. -/
def topThemes (minFreq topN : Nat) (input : List DocThemes) : List Theme :=
  (sortThemesByRelevance
    ((aggregateThemes input).filter (fun t => minFreq ≤ t.document_frequency))).take topN

/-- First-fit insertion of a theme into the cluster list: the theme joins the
first cluster accepted by `canJoin` (the similarity-to-centroid threshold
test, injected because embeddings are an external capability), and otherwise
opens a new singleton cluster at the end. -/
def insertIntoClusters (canJoin : Theme → List Theme → Bool) (t : Theme) :
    List (List Theme) → List (List Theme)
  | [] => [[t]]
  | c :: cs =>
    if canJoin t c then (c ++ [t]) :: cs else c :: insertIntoClusters canJoin t cs

/-- Modelled from the spec: greedy threshold clustering, assigning themes in
relevance-descending order. -/
def clusterThemes (canJoin : Theme → List Theme → Bool) (ts : List Theme) :
    List (List Theme) :=
  (sortThemesByRelevance ts).foldl (fun acc t => insertIntoClusters canJoin t acc) []

/-- Name each cluster after its first member (the highest-relevance member,
since assignment order is relevance-descending and new members are appended). -/
def mkThemeClusters (canJoin : Theme → List Theme → Bool) (ts : List Theme) :
    List ThemeCluster :=
  (clusterThemes canJoin ts).map (fun c =>
    { cluster_name := ((c.head?).map Theme.label).getD ""
      member_theme_labels := c.map Theme.label
      size := c.length })

/-! ## Contradiction detection (spec section 4.3)

Modelled from the spec: the contradiction detector of
`analysis_engine.lambda_handler` is not in the repository snapshot. Embedding
similarity is an injected function on statement texts (the Embedding Provider
is an external capability); candidate pairs must reach the topical threshold,
and a candidate is a contradiction on opposite polarity or on an
assertive-versus-assertive negation mismatch. -/

/-- Opposite polarity test (positive versus negative). -/
def oppositePolarity : Polarity → Polarity → Bool
  | Polarity.positive, Polarity.negative => true
  | Polarity.negative, Polarity.positive => true
  | _, _ => false

/-- Negation-marker detection over whitespace-separated words. -/
def hasNegationMarker (txt : String) : Bool :=
  ["not", "no", "never", "cannot"].any (fun w => (txt.splitOn " ").contains w)

/-- Modelled from the spec: a statement pair is a contradiction when it is a
topical candidate (similarity at least `th`) and either the polarities are
opposite, or both statements are assertive and exactly one carries a negation
marker. -/
def isContradiction (sim : String → String → ℚ) (th : ℚ) (s t : Statement) : Bool :=
  decide (th ≤ sim s.text t.text) &&
    (oppositePolarity s.polarity t.polarity ||
      (decide (s.certainty = Certainty.assertive) &&
        decide (t.certainty = Certainty.assertive) &&
        decide (hasNegationMarker s.text ≠ hasNegationMarker t.text)))

/-- Certainty weight used in the confidence formula: hedged statements
reduce confidence. -/
def certaintyWeight : Certainty → ℚ
  | Certainty.assertive => 1
  | Certainty.hedged => 1 / 2

/-- Clip a score into the interval from 0 to 1. -/
def clip01 (x : ℚ) : ℚ := min 1 (max 0 x)

/-- Modelled from the spec: confidence combines topical similarity with the
certainty of both statements, clipped into the unit interval. -/
def confidenceScore (sim : String → String → ℚ) (s t : Statement) : ℚ :=
  clip01 (sim s.text t.text *
    ((certaintyWeight s.certainty + certaintyWeight t.certainty) / 2))

/-- Contradiction type label. -/
def contradictionType (s t : Statement) : String :=
  if oppositePolarity s.polarity t.polarity then "opposing_views" else "factual_conflict"

/-- Build the reported pair with the canonical ordering: the document with
the lower id comes first. -/
def mkContradictionPair (a : Document) (s : Statement) (b : Document)
    (t : Statement) (conf : ℚ) (ty : String) : ContradictionPair :=
  if a.id ≤ b.id then
    { doc_a_id := a.id, doc_a_title := a.title, statement_a := s.text
      doc_b_id := b.id, doc_b_title := b.title, statement_b := t.text
      confidence_score := conf, contradiction_type := ty }
  else
    { doc_a_id := b.id, doc_a_title := b.title, statement_a := t.text
      doc_b_id := a.id, doc_b_title := a.title, statement_b := s.text
      confidence_score := conf, contradiction_type := ty }

/-- The canonical pair key used for deduplication. -/
def pairKey (p : ContradictionPair) : String × String × String × String :=
  (p.doc_a_id, p.statement_a, p.doc_b_id, p.statement_b)

/-- Deduplicate a pair list by canonical pair key. -/
def dedupByKey : List ContradictionPair → List ContradictionPair
  | [] => []
  | p :: ps =>
    if ps.any (fun q => pairKey q = pairKey p) then dedupByKey ps
    else p :: dedupByKey ps

/-- All unordered pairs of list elements, each once, first component earlier
in the list. -/
def allPairs {α : Type} : List α → List (α × α)
  | [] => []
  | x :: xs => xs.map (fun y => (x, y)) ++ allPairs xs

/-- Descending confidence order for reporting. -/
def byConfidenceDesc (p q : ContradictionPair) : Prop :=
  q.confidence_score ≤ p.confidence_score

instance : DecidableRel byConfidenceDesc := fun p q =>
  inferInstanceAs (Decidable (q.confidence_score ≤ p.confidence_score))

/-- Modelled from the spec: scan every unordered document pair, flag
contradictory statement pairs, deduplicate by canonical pair key, keep pairs
above the minimum confidence, sort by confidence descending and cap the
count. -/
def detectContradictions (sim : String → String → ℚ) (th minConf : ℚ)
    (cap : Nat) (docs : List (Document × List Statement)) :
    List ContradictionPair :=
  let raw := (allPairs docs).flatMap (fun ab =>
    ab.1.2.flatMap (fun s =>
      ab.2.2.filterMap (fun t =>
        if isContradiction sim th s t then
          some (mkContradictionPair ab.1.1 s ab.2.1 t
            (confidenceScore sim s t) (contradictionType s t))
        else none)))
  (((dedupByKey raw).filter (fun p => minConf ≤ p.confidence_score)).insertionSort
      byConfidenceDesc).take cap

/-! ## Perspective analysis (spec section 4.4)

Modelled from the spec: the perspective analyzer of
`analysis_engine.lambda_handler` is not in the repository snapshot. Authors
are profiled by modal polarity and modal certainty; each author becomes a
point in a two-dimensional feature space and diversity is the average
pairwise distance, normalized into the unit interval (the spec leaves the
exact distance formula tunable; the normalized squared Euclidean distance is
used so scores stay rational). -/

/-- One author profile. -/
structure AuthorPerspective where
  author : String
  document_count : Nat
  total_content_length : Nat
  sentiment_tendency : Polarity
  certainty_tendency : Certainty
deriving DecidableEq

/-- Modal polarity of a statement list (ties resolved toward the earlier
label in positive, neutral, negative order). -/
def modalPolarity (ps : List Polarity) : Polarity :=
  let np := ps.count Polarity.positive
  let nz := ps.count Polarity.neutral
  let nn := ps.count Polarity.negative
  if nz ≤ np ∧ nn ≤ np then Polarity.positive
  else if nn ≤ nz then Polarity.neutral
  else Polarity.negative

/-- Modal certainty of a statement list. -/
def modalCertainty (cs : List Certainty) : Certainty :=
  if cs.count Certainty.hedged ≤ cs.count Certainty.assertive then
    Certainty.assertive
  else Certainty.hedged

/-- Sentiment coordinate of the author feature point. -/
def sentimentScore : Polarity → ℚ
  | Polarity.negative => 0
  | Polarity.neutral => 1 / 2
  | Polarity.positive => 1

/-- Certainty coordinate of the author feature point. -/
def certaintyScore : Certainty → ℚ
  | Certainty.hedged => 0
  | Certainty.assertive => 1

/-- Distinct authors of the batch, in first-appearance order. -/
def distinctAuthors (docs : List Document) : List String :=
  (docs.map Document.author).dedup

/-- Profile one author from the documents and statements of the batch. -/
def authorPerspective (docs : List Document) (stmts : List Statement)
    (a : String) : AuthorPerspective :=
  let ds := docs.filter (fun d => d.author = a)
  let ss := stmts.filter (fun s => ds.any (fun d => d.id = s.document_id))
  { author := a
    document_count := ds.length
    total_content_length := (ds.map (fun d => d.full_text.length)).sum
    sentiment_tendency := modalPolarity (ss.map Statement.polarity)
    certainty_tendency := modalCertainty (ss.map Statement.certainty) }

/-- The author feature point. -/
def authorPoint (p : AuthorPerspective) : ℚ × ℚ :=
  (sentimentScore p.sentiment_tendency, certaintyScore p.certainty_tendency)

/-- Normalized squared Euclidean distance between two feature points; both
coordinates live in the unit interval, so this lies in the unit interval. -/
def pairDiversity (p q : ℚ × ℚ) : ℚ :=
  ((p.1 - q.1) ^ 2 + (p.2 - q.2) ^ 2) / 2

/-- Average pairwise diversity over the author points; with fewer than two
authors there are no pairs and the score is 0. -/
def overallDiversityScore (pts : List (ℚ × ℚ)) : ℚ :=
  let ds := (allPairs pts).map (fun pq => pairDiversity pq.1 pq.2)
  if ds.length = 0 then 0 else ds.sum / (ds.length : ℚ)

/-- Bucket the diversity score: low below 0.33, high from 0.66. -/
def diversityLevel (score : ℚ) : String :=
  if score < 33 / 100 then "low"
  else if score < 66 / 100 then "medium"
  else "high"

/-- The perspective analysis section of the response. -/
structure PerspectiveAnalysis where
  total_authors : Nat
  author_perspectives : List AuthorPerspective
  diversity_level : String
  overall_diversity_score : ℚ

/-- Modelled from the spec: profile every distinct author and score the
cross-author diversity. -/
def perspectiveAnalysisOf (docs : List Document) (stmts : List Statement) :
    PerspectiveAnalysis :=
  let authors := distinctAuthors docs
  let persps := authors.map (authorPerspective docs stmts)
  let score := overallDiversityScore (persps.map authorPoint)
  { total_authors := authors.length
    author_perspectives := persps
    diversity_level := diversityLevel score
    overall_diversity_score := score }

/-! ## Synthesis and orchestration (spec sections 4.5, 4.6)

Modelled from the spec: the synthesis generator and orchestrator of
`analysis_engine.lambda_handler` are not in the repository snapshot. The
synthesis is a pure, total aggregation over whichever sections were computed,
so it tolerates every subset of sections being absent; the orchestrator
validates, retrieves through the injected collaborator, short-circuits on an
empty batch, and otherwise runs the sub-analyses selected by
`analysis_type`. -/

/-- The theme analysis section of the response. -/
structure ThemeAnalysis where
  total_documents : Nat
  top_themes : List Theme
  theme_clusters : List ThemeCluster

/-- The contradiction analysis section of the response. -/
structure ContradictionAnalysis where
  total_documents_analyzed : Nat
  contradictions_found : Nat
  high_confidence_contradictions : List ContradictionPair

/-- The synthesis section of the response. -/
structure Synthesis where
  key_insights : List String
  recommendations : List String
  theme_coherence : String
  consistency_level : String
  perspective_diversity : String

/-- Theme coherence label from the theme section, when present. -/
def themeCoherenceLabel (ta : Option ThemeAnalysis) : String :=
  match ta with
  | none => "not_assessed"
  | some a => if a.theme_clusters.length * 2 ≤ a.top_themes.length then "high" else "moderate"

/-- Consistency label from the contradiction section, when present. -/
def consistencyLabel (ca : Option ContradictionAnalysis) : String :=
  match ca with
  | none => "not_assessed"
  | some c => if c.contradictions_found = 0 then "consistent" else "conflicting"

/-- Diversity label from the perspective section, when present. -/
def perspectiveDiversityLabel (pa : Option PerspectiveAnalysis) : String :=
  match pa with
  | none => "not_assessed"
  | some p => p.diversity_level

/-- Modelled from the spec: pure aggregation of whichever sections were
computed; total in all three optional arguments. -/
def synthesize (ta : Option ThemeAnalysis) (ca : Option ContradictionAnalysis)
    (pa : Option PerspectiveAnalysis) : Synthesis :=
  { key_insights :=
      (ta.map (fun a => "top themes identified: " ++ toString a.top_themes.length)).toList ++
      (ca.map (fun c => "contradictions found: " ++ toString c.contradictions_found)).toList ++
      (pa.map (fun p => "author diversity level: " ++ p.diversity_level)).toList
    recommendations :=
      (ca.map (fun c =>
        if c.contradictions_found = 0 then "no contradictions require follow-up"
        else "investigate the highest-confidence contradictions")).toList
    theme_coherence := themeCoherenceLabel ta
    consistency_level := consistencyLabel ca
    perspective_diversity := perspectiveDiversityLabel pa }

/-- The top-level response value. Absent sections are `none`, matching the
spec requirement that unrequested sections are absent rather than empty. -/
structure AnalysisResponse where
  documents_analyzed : Nat
  theme_analysis : Option ThemeAnalysis
  contradiction_analysis : Option ContradictionAnalysis
  perspective_analysis : Option PerspectiveAnalysis
  synthesis : Option Synthesis

/-- Configuration of the engine: the injected capabilities (similarity,
cluster-join test, per-document extractors) and the tunable thresholds. -/
structure EngineConfig where
  sim : String → String → ℚ
  canJoin : Theme → List Theme → Bool
  extractThemes : Document → List (String × Nat)
  extractStatements : Document → List Statement
  min_theme_frequency : Nat
  top_theme_count : Nat
  topical_threshold : ℚ
  min_confidence : ℚ
  max_contradictions : Nat

/-- Does the analysis type select the theme sub-analysis? -/
def wantsThemes (t : String) : Bool :=
  t == "comprehensive" || t == "themes"

/-- Does the analysis type select the contradiction sub-analysis? -/
def wantsContradictions (t : String) : Bool :=
  t == "comprehensive" || t == "contradictions"

/-- Does the analysis type select the perspective sub-analysis? -/
def wantsPerspectives (t : String) : Bool :=
  t == "comprehensive" || t == "perspectives"

/-- Run the theme sub-analysis over the batch. -/
def themeAnalysisOf (cfg : EngineConfig) (docs : List Document) : ThemeAnalysis :=
  let input := docs.map (fun d => (d.id, cfg.extractThemes d))
  let ts := topThemes cfg.min_theme_frequency cfg.top_theme_count input
  { total_documents := docs.length
    top_themes := ts
    theme_clusters := mkThemeClusters cfg.canJoin ts }

/-- Run the contradiction sub-analysis over the batch. -/
def contradictionAnalysisOf (cfg : EngineConfig) (docs : List Document) :
    ContradictionAnalysis :=
  let pairs := detectContradictions cfg.sim cfg.topical_threshold
    cfg.min_confidence cfg.max_contradictions
    (docs.map (fun d => (d, cfg.extractStatements d)))
  { total_documents_analyzed := docs.length
    contradictions_found := pairs.length
    high_confidence_contradictions := pairs }

/-- The ANALYZING and SYNTHESIZING stages: run the sub-analyses selected by
the analysis type; synthesis runs only when more than one sub-analysis was
requested. -/
def analyzeDocuments (cfg : EngineConfig) (v : ValidRequest)
    (docs : List Document) : AnalysisResponse :=
  let ta := if wantsThemes v.analysis_type then some (themeAnalysisOf cfg docs) else none
  let ca := if wantsContradictions v.analysis_type then
    some (contradictionAnalysisOf cfg docs) else none
  let pa := if wantsPerspectives v.analysis_type then
    some (perspectiveAnalysisOf docs (docs.flatMap cfg.extractStatements)) else none
  { documents_analyzed := docs.length
    theme_analysis := ta
    contradiction_analysis := ca
    perspective_analysis := pa
    synthesis :=
      if ([ta.isSome, ca.isSome, pa.isSome].count true ≤ 1 : Bool) then none
      else some (synthesize ta ca pa) }

/-- The explicit "no documents" result: zero documents analyzed and every
section absent. -/
def emptyResponse : AnalysisResponse :=
  { documents_analyzed := 0
    theme_analysis := none
    contradiction_analysis := none
    perspective_analysis := none
    synthesis := none }

/-- Modelled from the spec: the orchestrator state machine. VALIDATING may
reject with a `ValidationError` before the retrieval collaborator is
consulted; RETRIEVING uses the injected collaborator and short-circuits to
the explicit "no documents" result on an empty batch; otherwise ANALYZING and
SYNTHESIZING build the response. -/
def runOrchestrator (cfg : EngineConfig)
    (retrieve : Option String → Option String → Nat → List Document)
    (r : AnalysisRequest) : Except ValidationError AnalysisResponse :=
  match validateRequest r with
  | Except.error e => Except.error e
  | Except.ok v =>
    let docs := (retrieve r.query r.document_ids v.max_documents).take v.max_documents
    if docs.isEmpty then Except.ok emptyResponse
    else Except.ok (analyzeDocuments cfg v docs)

/-! ## Shared concrete values used by claim witnesses -/

/-- A concrete engine configuration with trivial injected capabilities. -/
def trivialConfig : EngineConfig :=
  { sim := fun _ _ => 1
    canJoin := fun _ _ => false
    extractThemes := fun _ => []
    extractStatements := fun _ => []
    min_theme_frequency := 2
    top_theme_count := 15
    topical_threshold := 1
    min_confidence := 0
    max_contradictions := 50 }

/-- A concrete retrieval collaborator returning no documents. -/
def emptyRetrieve : Option String → Option String → Nat → List Document :=
  fun _ _ _ => []

/-- A concrete document used by witnesses. -/
def docW : Document :=
  { id := "d1", title := "Doc one", author := "Ada", full_text := "text" }

/-- A second concrete document by a second author, used by witnesses. -/
def docW2 : Document :=
  { id := "d2", title := "Doc two", author := "Bea", full_text := "text two" }

/-- A concrete retrieval collaborator returning one document. -/
def oneDocRetrieve : Option String → Option String → Nat → List Document :=
  fun _ _ _ => [docW]

/-- A concrete configuration whose extractor reports the theme ai in every
document. -/
def themesConfig : EngineConfig :=
  { trivialConfig with extractThemes := fun _ => [("ai", 3)] }

/-- Strict descending relevance order. -/
def byRelevanceStrict (a b : Theme) : Prop :=
  b.relevance_score < a.relevance_score

instance : IsTotal Theme byRelevanceDesc :=
  ⟨fun a b => le_total b.relevance_score a.relevance_score⟩

instance : IsTrans Theme byRelevanceDesc :=
  ⟨fun _ _ _ h1 h2 => le_trans h2 h1⟩

instance : IsAntisymm Theme byRelevanceStrict :=
  ⟨fun _ _ h1 h2 => absurd (lt_trans h1 h2) (lt_irrefl _)⟩

/-- A concrete cluster-join test used by the claim C4 counterexample: the
theme C may join any cluster containing A or B, nothing else joins. -/
def canJoinW : Theme → List Theme → Bool := fun t c =>
  decide (t.label = "C") &&
    c.any (fun u => decide (u.label = "A") || decide (u.label = "B"))

/-- Concrete themes: A and B share one relevance score, C is similar to both
A and B under `canJoinW`. -/
def themeA : Theme :=
  { label := "A", frequency := 1, document_frequency := 1, relevance_score := 3 }

/-- Concrete theme sharing the relevance score of A. -/
def themeB : Theme :=
  { label := "B", frequency := 1, document_frequency := 1, relevance_score := 3 }

/-- Concrete low-relevance theme joining either A or B first-fit. -/
def themeC : Theme :=
  { label := "C", frequency := 1, document_frequency := 1, relevance_score := 1 }

/-! ## Helper lemmas about validation -/

theorem validateRequest_ok_type {r : AnalysisRequest} {v : ValidRequest}
    (h : validateRequest r = Except.ok v) : v.analysis_type = r.analysis_type := by
  unfold validateRequest at h
  split at h
  · split at h
    · cases h
      rfl
    · split at h
      · cases h
        rfl
      · cases h
  · cases h

theorem validateRequest_ok_mem {r : AnalysisRequest} {v : ValidRequest}
    (h : validateRequest r = Except.ok v) :
    r.analysis_type ∈ analysisTypeEnum := by
  unfold validateRequest at h
  split at h
  next hmem => exact hmem
  next hmem => cases h

theorem validateRequest_ok_max {r : AnalysisRequest} {v : ValidRequest}
    (h : validateRequest r = Except.ok v) :
    maxDocumentsMinimum ≤ v.max_documents ∧
      v.max_documents ≤ maxDocumentsMaximum ∧
      (r.max_documents = none → v.max_documents = maxDocumentsDefault) := by
  unfold validateRequest at h
  split at h
  · split at h
    next hm =>
      cases h
      refine ⟨?_, ?_, fun _ => rfl⟩
      · show maxDocumentsMinimum ≤ maxDocumentsDefault
        decide
      · show maxDocumentsDefault ≤ maxDocumentsMaximum
        decide
    next m hm =>
      split at h
      next hb =>
        cases h
        exact ⟨hb.1, hb.2, fun hc => by rw [hm] at hc; cases hc⟩
      next hb => cases h
  · cases h

/-! ## Claim theorems -/

/-- Claim C9: every instance of the construct configures the analysis Lambda
with handler analysis_engine.lambda_handler, a 10 minute (600 second)
timeout, and 1024 MB of memory, independent of the construct props and
region. -/
theorem c9_analysis_function_budget (props : CrossLibraryAnalysisConstructProps)
    (region : String) :
    (mkAnalysisFunction props region).handler = "analysis_engine.lambda_handler" ∧
    (mkAnalysisFunction props region).timeoutSeconds = durationMinutesInSeconds 10 ∧
    (mkAnalysisFunction props region).timeoutSeconds = 600 ∧
    (mkAnalysisFunction props region).memorySize = 1024 :=
  ⟨rfl, rfl, rfl, rfl⟩

/-- Claim C10: every inline policy statement of the analysis role is an Allow
statement whose actions are contained in the four allowed API actions
(aoss:APIAccessAll and the three CloudWatch Logs actions), for every region
and account. -/
theorem c10_analysis_role_inline_actions (region account : String)
    (pd : String × PolicyDocument)
    (hpd : pd ∈ (mkAnalysisRole region account).inlinePolicies)
    (st : PolicyStatement) (hst : st ∈ pd.2.statements) :
    st.effect = Effect.allow ∧ st.actions ⊆ analysisRoleAllowedActions := by
  unfold mkAnalysisRole at hpd
  simp only [List.mem_cons, List.not_mem_nil, or_false] at hpd
  rcases hpd with h | h <;>
    · subst h
      simp only [List.mem_cons, List.not_mem_nil, or_false] at hst
      subst hst
      refine ⟨rfl, ?_⟩
      intro a ha
      simp only [analysisRoleAllowedActions, List.mem_cons, List.not_mem_nil] at ha ⊢
      tauto

/-- Witness for claim C10 at a concrete region, account, inline policy and
statement. -/
theorem c10_analysis_role_inline_actions_witness :
    (⟨Effect.allow, ["aoss:APIAccessAll"], ["*"]⟩ : PolicyStatement).effect
        = Effect.allow ∧
    (⟨Effect.allow, ["aoss:APIAccessAll"], ["*"]⟩ : PolicyStatement).actions
        ⊆ analysisRoleAllowedActions :=
  c10_analysis_role_inline_actions "us-east-1" "123456789012"
    ("OpenSearchAccess",
      { statements := [⟨Effect.allow, ["aoss:APIAccessAll"], ["*"]⟩] })
    (by unfold mkAnalysisRole; exact List.mem_cons_self _ _)
    ⟨Effect.allow, ["aoss:APIAccessAll"], ["*"]⟩
    (List.mem_cons_self _ _)

/-- Claim C1: validation accepts the analysis type exactly when it is one of
the four enum values of the schema; any other value is rejected as a
ValidationError, and the orchestrator then fails with that error for every
configuration and every retrieval collaborator, so rejection happens before
any retrieval or analysis work. -/
theorem c1_analysis_type_validation (r : AnalysisRequest) :
    ((∃ t, validateRequest r = Except.error (ValidationError.invalidAnalysisType t)) ↔
      r.analysis_type ∉ analysisTypeEnum) ∧
    (r.analysis_type ∉ analysisTypeEnum →
      ∀ (cfg : EngineConfig)
        (retrieve : Option String → Option String → Nat → List Document),
        runOrchestrator cfg retrieve r =
          Except.error (ValidationError.invalidAnalysisType r.analysis_type)) := by
  have herr : r.analysis_type ∉ analysisTypeEnum →
      validateRequest r = Except.error (ValidationError.invalidAnalysisType r.analysis_type) := by
    intro hmem
    unfold validateRequest
    rw [if_neg hmem]
  constructor
  · constructor
    · rintro ⟨t, ht⟩ hmem
      unfold validateRequest at ht
      rw [if_pos hmem] at ht
      split at ht
      · cases ht
      · split at ht
        · cases ht
        · cases ht
    · intro hmem
      exact ⟨r.analysis_type, herr hmem⟩
  · intro hmem cfg retrieve
    unfold runOrchestrator
    rw [herr hmem]

/-- Witness for claim C1 at the concrete rejected analysis type
sentiment. -/
theorem c1_analysis_type_validation_witness :
    ("sentiment" ∉ analysisTypeEnum) ∧
    runOrchestrator trivialConfig emptyRetrieve
        { analysis_type := "sentiment", query := none
          document_ids := none, max_documents := none } =
      Except.error (ValidationError.invalidAnalysisType "sentiment") :=
  ⟨by decide,
    (c1_analysis_type_validation
      { analysis_type := "sentiment", query := none
        document_ids := none, max_documents := none }).2
      (by decide) trivialConfig emptyRetrieve⟩

/-- Claim C2: a validated request always carries a max_documents value
between the schema minimum 1 and the schema maximum 100, and an omitted
max_documents takes the schema default 20. -/
theorem c2_max_documents_bounds (r : AnalysisRequest) (v : ValidRequest)
    (h : validateRequest r = Except.ok v) :
    (1 ≤ v.max_documents ∧ v.max_documents ≤ 100) ∧
    (r.max_documents = none → v.max_documents = 20) ∧
    maxDocumentsMinimum = 1 ∧ maxDocumentsMaximum = 100 ∧ maxDocumentsDefault = 20 := by
  obtain ⟨h1, h2, h3⟩ := validateRequest_ok_max h
  exact ⟨⟨h1, h2⟩, h3, rfl, rfl, rfl⟩

/-- Witness for claim C2 at a concrete request with max_documents
omitted. -/
theorem c2_max_documents_bounds_witness :
    ((1 ≤ (⟨"themes", 20⟩ : ValidRequest).max_documents ∧
        (⟨"themes", 20⟩ : ValidRequest).max_documents ≤ 100) ∧
      ((none : Option Nat) = none →
        (⟨"themes", 20⟩ : ValidRequest).max_documents = 20) ∧
      maxDocumentsMinimum = 1 ∧ maxDocumentsMaximum = 100 ∧ maxDocumentsDefault = 20) :=
  c2_max_documents_bounds
    { analysis_type := "themes", query := none
      document_ids := none, max_documents := none }
    ⟨"themes", 20⟩ rfl

/-- Claim C7: when the retrieval collaborator returns zero documents the
orchestrator completes successfully with the explicit "no documents" result:
zero documents analyzed and every analysis section absent; no error is
raised. -/
theorem c7_empty_retrieval_short_circuit (cfg : EngineConfig)
    (retrieve : Option String → Option String → Nat → List Document)
    (r : AnalysisRequest) (v : ValidRequest)
    (hv : validateRequest r = Except.ok v)
    (hr : retrieve r.query r.document_ids v.max_documents = []) :
    runOrchestrator cfg retrieve r = Except.ok emptyResponse ∧
    emptyResponse.documents_analyzed = 0 ∧
    emptyResponse.theme_analysis = none ∧
    emptyResponse.contradiction_analysis = none ∧
    emptyResponse.perspective_analysis = none ∧
    emptyResponse.synthesis = none := by
  refine ⟨?_, rfl, rfl, rfl, rfl, rfl⟩
  unfold runOrchestrator
  rw [hv]
  simp [hr]

/-- Witness for claim C7 with a concrete collaborator returning no
documents. -/
theorem c7_empty_retrieval_short_circuit_witness :
    runOrchestrator trivialConfig emptyRetrieve
        { analysis_type := "comprehensive", query := none
          document_ids := none, max_documents := none } =
      Except.ok emptyResponse ∧
    emptyResponse.documents_analyzed = 0 ∧
    emptyResponse.theme_analysis = none ∧
    emptyResponse.contradiction_analysis = none ∧
    emptyResponse.perspective_analysis = none ∧
    emptyResponse.synthesis = none :=
  c7_empty_retrieval_short_circuit trivialConfig emptyRetrieve
    { analysis_type := "comprehensive", query := none
      document_ids := none, max_documents := none }
    ⟨"comprehensive", 20⟩ rfl rfl

/-- Claim C8: a themes request on a nonempty batch yields a response holding
the theme section only — the contradiction and perspective sections are
absent (none, not empty objects) and so is the synthesis of a single-type
request — and the synthesis generator tolerates any subset of sections being
absent: it is total and draws exactly one insight from each present
section. -/
theorem c8_themes_only_sections (cfg : EngineConfig)
    (retrieve : Option String → Option String → Nat → List Document)
    (r : AnalysisRequest) (v : ValidRequest)
    (ht : r.analysis_type = "themes")
    (hv : validateRequest r = Except.ok v)
    (hne : retrieve r.query r.document_ids v.max_documents ≠ []) :
    (∃ resp, runOrchestrator cfg retrieve r = Except.ok resp ∧
      resp.theme_analysis.isSome = true ∧
      resp.contradiction_analysis = none ∧
      resp.perspective_analysis = none ∧
      resp.synthesis = none) ∧
    (∀ (ta : Option ThemeAnalysis) (ca : Option ContradictionAnalysis)
        (pa : Option PerspectiveAnalysis),
      (synthesize ta ca pa).key_insights.length =
        (if ta.isSome then 1 else 0) + (if ca.isSome then 1 else 0) +
          (if pa.isSome then 1 else 0)) := by
  constructor
  · have hvty : v.analysis_type = "themes" := by
      rw [validateRequest_ok_type hv, ht]
    have hmax : 1 ≤ v.max_documents := (validateRequest_ok_max hv).1
    have hdocs : (retrieve r.query r.document_ids v.max_documents).take
        v.max_documents ≠ [] := by
      intro hcon
      rcases List.take_eq_nil_iff.mp hcon with h0 | h0
      · omega
      · exact hne h0
    refine ⟨analyzeDocuments cfg v
      ((retrieve r.query r.document_ids v.max_documents).take v.max_documents),
      ?_, ?_, ?_, ?_, ?_⟩
    · unfold runOrchestrator
      rw [hv]
      simp only [List.isEmpty_eq_true]
      rw [if_neg hdocs]
    · simp [analyzeDocuments, hvty, wantsThemes]
    · simp [analyzeDocuments, hvty, wantsContradictions]
    · simp [analyzeDocuments, hvty, wantsPerspectives]
    · simp [analyzeDocuments, hvty, wantsThemes, wantsContradictions, wantsPerspectives]
  · intro ta ca pa
    cases ta <;> cases ca <;> cases pa <;> simp [synthesize]

/-- Witness for claim C8 with a concrete one-document batch. -/
theorem c8_themes_only_sections_witness :
    (∃ resp, runOrchestrator trivialConfig oneDocRetrieve
        { analysis_type := "themes", query := none
          document_ids := none, max_documents := none } = Except.ok resp ∧
      resp.theme_analysis.isSome = true ∧
      resp.contradiction_analysis = none ∧
      resp.perspective_analysis = none ∧
      resp.synthesis = none) ∧
    (∀ (ta : Option ThemeAnalysis) (ca : Option ContradictionAnalysis)
        (pa : Option PerspectiveAnalysis),
      (synthesize ta ca pa).key_insights.length =
        (if ta.isSome then 1 else 0) + (if ca.isSome then 1 else 0) +
          (if pa.isSome then 1 else 0)) :=
  c8_themes_only_sections trivialConfig oneDocRetrieve
    { analysis_type := "themes", query := none
      document_ids := none, max_documents := none }
    ⟨"themes", 20⟩ rfl rfl (by decide)

/-- Every theme reported by `topThemes` passes the document-frequency
filter. -/
theorem topThemes_docFreq {minFreq topN : Nat} {input : List DocThemes}
    {t : Theme} (ht : t ∈ topThemes minFreq topN input) :
    minFreq ≤ t.document_frequency := by
  unfold topThemes at ht
  have h1 := List.Sublist.mem ht (List.take_sublist _ _)
  have h2 : t ∈ (aggregateThemes input).filter
      (fun t => minFreq ≤ t.document_frequency) :=
    ((List.perm_insertionSort byRelevanceDesc _).mem_iff).mp h1
  have h3 := (List.mem_filter.mp h2).2
  exact of_decide_eq_true h3

/-- Claim C5: for every document batch and every min_theme_frequency value,
every theme in the returned top_themes has document_frequency at least
min_theme_frequency; themes below the threshold are dropped. -/
theorem c5_min_theme_frequency (cfg : EngineConfig) (docs : List Document)
    (t : Theme) (ht : t ∈ (themeAnalysisOf cfg docs).top_themes) :
    cfg.min_theme_frequency ≤ t.document_frequency := by
  unfold themeAnalysisOf at ht
  exact topThemes_docFreq ht

/-- Witness for claim C5 on a concrete two-document batch in which the theme
ai appears in both documents. -/
theorem c5_min_theme_frequency_witness :
    themesConfig.min_theme_frequency ≤
      (Theme.mk "ai" 6 2 (relevanceScore 6 2)).document_frequency :=
  c5_min_theme_frequency themesConfig [docW, docW2]
    (Theme.mk "ai" 6 2 (relevanceScore 6 2)) (by decide)

/-- Both components of an unordered pair come from the underlying list. -/
theorem mem_of_mem_allPairs {α : Type} {l : List α} {p : α × α}
    (h : p ∈ allPairs l) : p.1 ∈ l ∧ p.2 ∈ l := by
  induction l with
  | nil => cases h
  | cons x xs ih =>
    unfold allPairs at h
    rcases List.mem_append.mp h with h1 | h1
    · rcases List.mem_map.mp h1 with ⟨y, hy, hEq⟩
      rw [← hEq]
      exact ⟨List.mem_cons_self x xs, List.mem_cons_of_mem x hy⟩
    · have hm := ih h1
      exact ⟨List.mem_cons_of_mem x hm.1, List.mem_cons_of_mem x hm.2⟩

theorem pairDiversity_nonneg (p q : ℚ × ℚ) : 0 ≤ pairDiversity p q := by
  unfold pairDiversity
  positivity

theorem pairDiversity_le_one {p q : ℚ × ℚ}
    (hp : (0 ≤ p.1 ∧ p.1 ≤ 1) ∧ (0 ≤ p.2 ∧ p.2 ≤ 1))
    (hq : (0 ≤ q.1 ∧ q.1 ≤ 1) ∧ (0 ≤ q.2 ∧ q.2 ≤ 1)) :
    pairDiversity p q ≤ 1 := by
  unfold pairDiversity
  have h1 : (p.1 - q.1) ^ 2 ≤ 1 := by
    nlinarith [mul_nonneg (by linarith [hp.1.2, hq.1.1] : (0:ℚ) ≤ 1 - (p.1 - q.1))
      (by linarith [hp.1.1, hq.1.2] : (0:ℚ) ≤ 1 + (p.1 - q.1))]
  have h2 : (p.2 - q.2) ^ 2 ≤ 1 := by
    nlinarith [mul_nonneg (by linarith [hp.2.2, hq.2.1] : (0:ℚ) ≤ 1 - (p.2 - q.2))
      (by linarith [hp.2.1, hq.2.2] : (0:ℚ) ≤ 1 + (p.2 - q.2))]
  linarith

/-- The average pairwise diversity of points with unit-interval coordinates
stays in the unit interval. -/
theorem overallDiversityScore_bounds (pts : List (ℚ × ℚ))
    (h : ∀ p ∈ pts, (0 ≤ p.1 ∧ p.1 ≤ 1) ∧ (0 ≤ p.2 ∧ p.2 ≤ 1)) :
    0 ≤ overallDiversityScore pts ∧ overallDiversityScore pts ≤ 1 := by
  unfold overallDiversityScore
  set ds := (allPairs pts).map (fun pq => pairDiversity pq.1 pq.2) with hds
  by_cases h0 : ds.length = 0
  · rw [if_pos h0]
    norm_num
  · rw [if_neg h0]
    have hnn : ∀ x ∈ ds, (0:ℚ) ≤ x := by
      intro x hx
      rcases List.mem_map.mp hx with ⟨pq, hpq, rfl⟩
      exact pairDiversity_nonneg _ _
    have hle : ∀ x ∈ ds, x ≤ (1:ℚ) := by
      intro x hx
      rcases List.mem_map.mp hx with ⟨pq, hpq, rfl⟩
      have hm := mem_of_mem_allPairs hpq
      exact pairDiversity_le_one (h _ hm.1) (h _ hm.2)
    have hpos : (0:ℚ) < (ds.length : ℚ) := by
      have := Nat.pos_of_ne_zero h0
      exact_mod_cast this
    constructor
    · exact div_nonneg (List.sum_nonneg hnn) (le_of_lt hpos)
    · rw [div_le_one hpos]
      calc ds.sum ≤ ds.length • (1:ℚ) := List.sum_le_card_nsmul ds 1 hle
        _ = (ds.length : ℚ) := by simp

/-- Author feature points have unit-interval coordinates. -/
theorem authorPoint_bounds (p : AuthorPerspective) :
    (0 ≤ (authorPoint p).1 ∧ (authorPoint p).1 ≤ 1) ∧
    (0 ≤ (authorPoint p).2 ∧ (authorPoint p).2 ≤ 1) := by
  unfold authorPoint sentimentScore certaintyScore
  cases p.sentiment_tendency <;> cases p.certainty_tendency <;> norm_num

/-- Deduplicating a nonempty constant list gives the singleton. -/
theorem dedup_eq_single {α : Type} [DecidableEq α] {l : List α} {a : α}
    (hne : l ≠ []) (hall : ∀ x ∈ l, x = a) : l.dedup = [a] := by
  induction l with
  | nil => cases hne rfl
  | cons x xs ih =>
    have hx : x = a := hall x (List.mem_cons_self x xs)
    subst hx
    cases hxs : xs with
    | nil => simp
    | cons y ys =>
      have hy : y = x := hall y (by rw [hxs]; exact List.mem_cons_of_mem _ (List.mem_cons_self y ys))
      have hmem : x ∈ y :: ys := by
        rw [hy]
        exact List.mem_cons_self x ys
      rw [List.dedup_cons_of_mem hmem]
      have hys : xs.dedup = [x] := by
        refine ih (by rw [hxs]; intro hc; cases hc) ?_
        intro z hz
        exact hall z (List.mem_cons_of_mem _ hz)
      rw [hxs] at hys
      exact hys

/-- Claim C6: the overall diversity score always lies in the unit interval,
and a nonempty batch whose documents all share one author reports level low
with score exactly 0. -/
theorem c6_diversity_bounds (docs : List Document) (stmts : List Statement)
    (a : String) :
    (0 ≤ (perspectiveAnalysisOf docs stmts).overall_diversity_score ∧
      (perspectiveAnalysisOf docs stmts).overall_diversity_score ≤ 1) ∧
    (docs ≠ [] → (∀ d ∈ docs, d.author = a) →
      (perspectiveAnalysisOf docs stmts).diversity_level = "low" ∧
      (perspectiveAnalysisOf docs stmts).overall_diversity_score = 0) := by
  constructor
  · exact overallDiversityScore_bounds
      (((distinctAuthors docs).map (authorPerspective docs stmts)).map authorPoint)
      (by
        intro p hp
        rcases List.mem_map.mp hp with ⟨q, hq, rfl⟩
        exact authorPoint_bounds q)
  · intro hne hall
    have hd : distinctAuthors docs = [a] := by
      unfold distinctAuthors
      refine dedup_eq_single ?_ ?_
      · simp only [ne_eq, List.map_eq_nil_iff]
        exact hne
      · intro x hx
        rcases List.mem_map.mp hx with ⟨d, hdmem, rfl⟩
        exact hall d hdmem
    constructor
    · show diversityLevel _ = "low"
      rw [hd]
      norm_num [overallDiversityScore, allPairs, diversityLevel]
    · show overallDiversityScore _ = 0
      rw [hd]
      simp [overallDiversityScore, allPairs]

/-- Witness for claim C6 on a concrete single-author batch. -/
theorem c6_diversity_bounds_witness :
    (0 ≤ (perspectiveAnalysisOf [docW] []).overall_diversity_score ∧
      (perspectiveAnalysisOf [docW] []).overall_diversity_score ≤ 1) ∧
    ((perspectiveAnalysisOf [docW] []).diversity_level = "low" ∧
      (perspectiveAnalysisOf [docW] []).overall_diversity_score = 0) :=
  ⟨(c6_diversity_bounds [docW] [] "Ada").1,
    (c6_diversity_bounds [docW] [] "Ada").2 (by decide) (by decide)⟩

theorem oppositePolarity_comm (p q : Polarity) :
    oppositePolarity p q = oppositePolarity q p := by
  cases p <;> cases q <;> rfl

/-- The statement-level contradiction test is symmetric whenever the
injected similarity is symmetric. -/
theorem isContradiction_symm (sim : String → String → ℚ)
    (hsym : ∀ a b, sim a b = sim b a) (th : ℚ) (s t : Statement) :
    isContradiction sim th s t = isContradiction sim th t s := by
  obtain ⟨sd, stx, sp, sc⟩ := s
  obtain ⟨td, ttx, tp, tc⟩ := t
  unfold isContradiction
  simp only []
  rw [hsym stx ttx, oppositePolarity_comm]
  cases sc <;> cases tc <;>
    cases h1 : hasNegationMarker stx <;> cases h2 : hasNegationMarker ttx <;>
      simp [h1, h2]

theorem mem_dedupByKey {p : ContradictionPair} :
    ∀ {l : List ContradictionPair}, p ∈ dedupByKey l → p ∈ l := by
  intro l
  induction l with
  | nil => intro h; cases h
  | cons q qs ih =>
    intro h
    unfold dedupByKey at h
    split at h
    · exact List.mem_cons_of_mem _ (ih h)
    · rcases List.mem_cons.mp h with h1 | h1
      · rw [h1]
        exact List.mem_cons_self _ _
      · exact List.mem_cons_of_mem _ (ih h1)

/-- After key-based deduplication the canonical pair keys are pairwise
distinct. -/
theorem dedupByKey_keys_nodup (l : List ContradictionPair) :
    ((dedupByKey l).map pairKey).Nodup := by
  induction l with
  | nil => simp [dedupByKey]
  | cons q qs ih =>
    unfold dedupByKey
    split
    · exact ih
    next hany =>
      simp only [List.map_cons]
      refine List.nodup_cons.mpr ⟨?_, ih⟩
      intro hmem
      rcases List.mem_map.mp hmem with ⟨q2, hq2, hkey⟩
      have hq2m : q2 ∈ qs := mem_dedupByKey hq2
      have hfalse : qs.any (fun q2 => pairKey q2 = pairKey q) = false := by
        cases hval : qs.any (fun q2 => pairKey q2 = pairKey q) with
        | false => rfl
        | true => exact absurd hval hany
      have := List.any_eq_false.mp hfalse q2 hq2m
      exact this (decide_eq_true hkey)

/-- Reported pairs are canonically ordered at construction: the lower
document id comes first. -/
theorem mkContradictionPair_canonical (a : Document) (s : Statement)
    (b : Document) (t : Statement) (c : ℚ) (ty : String) :
    (mkContradictionPair a s b t c ty).doc_a_id ≤
      (mkContradictionPair a s b t c ty).doc_b_id := by
  unfold mkContradictionPair
  split
  next h => exact h
  next h => exact le_of_not_le h

/-- Key distinctness survives the filter, sort and cap steps that follow
deduplication. -/
theorem keys_nodup_pipeline (l : List ContradictionPair) (minConf : ℚ)
    (cap : Nat) :
    (((((dedupByKey l).filter
          (fun p => minConf ≤ p.confidence_score)).insertionSort
        byConfidenceDesc).take cap).map pairKey).Nodup := by
  have h0 := dedupByKey_keys_nodup l
  have h1 : ((((dedupByKey l).filter
      (fun p => minConf ≤ p.confidence_score)).map pairKey)).Nodup :=
    List.Nodup.sublist (List.Sublist.map pairKey (List.filter_sublist _)) h0
  have h2 : (((((dedupByKey l).filter
      (fun p => minConf ≤ p.confidence_score)).insertionSort
        byConfidenceDesc).map pairKey)).Nodup :=
    ((List.perm_insertionSort byConfidenceDesc _).map pairKey).nodup_iff.mpr h1
  exact List.Nodup.sublist
    (List.Sublist.map pairKey (List.take_sublist _ _)) h2

/-- Claim C3: contradiction detection is symmetric whenever the injected
embedding similarity is symmetric, the reported list never contains the same
canonical pair key twice, and every reported pair is stored in canonical
order with the lower document id first. -/
theorem c3_contradiction_symmetry_dedup (sim : String → String → ℚ)
    (hsym : ∀ a b, sim a b = sim b a) (th minConf : ℚ) (cap : Nat)
    (docs : List (Document × List Statement)) :
    (∀ s t, isContradiction sim th s t = isContradiction sim th t s) ∧
    ((detectContradictions sim th minConf cap docs).map pairKey).Nodup ∧
    (∀ p ∈ detectContradictions sim th minConf cap docs,
      p.doc_a_id ≤ p.doc_b_id) := by
  refine ⟨isContradiction_symm sim hsym th, ?_, ?_⟩
  · exact keys_nodup_pipeline _ minConf cap
  · intro p hp
    unfold detectContradictions at hp
    have hsort := List.Sublist.mem hp (List.take_sublist _ _)
    have hfil := ((List.perm_insertionSort byConfidenceDesc _).mem_iff).mp hsort
    have hded := (List.mem_filter.mp hfil).1
    have hraw := mem_dedupByKey hded
    rcases List.mem_flatMap.mp hraw with ⟨ab, hab, hp1⟩
    rcases List.mem_flatMap.mp hp1 with ⟨s, hs, hp2⟩
    rcases List.mem_filterMap.mp hp2 with ⟨t, ht, hp3⟩
    split at hp3
    · cases hp3
      exact mkContradictionPair_canonical _ _ _ _ _ _
    · cases hp3

/-- Witness for claim C3 with a concrete symmetric similarity. -/
theorem c3_contradiction_symmetry_dedup_witness :
    (∀ s t, isContradiction (fun _ _ => 1) 1 s t
        = isContradiction (fun _ _ => 1) 1 t s) ∧
    ((detectContradictions (fun _ _ => 1) 1 0 50
        [(docW, []), (docW2, [])]).map pairKey).Nodup ∧
    (∀ p ∈ detectContradictions (fun _ _ => 1) 1 0 50
        [(docW, []), (docW2, [])], p.doc_a_id ≤ p.doc_b_id) :=
  c3_contradiction_symmetry_dedup (fun _ _ => 1) (fun _ _ => rfl) 1 0 50
    [(docW, []), (docW2, [])]

/-- Sorting by relevance is permutation-invariant when the relevance scores
are pairwise distinct. -/
theorem sortThemesByRelevance_perm_eq {ts1 ts2 : List Theme}
    (hperm : ts1.Perm ts2)
    (hdist : ts1.Pairwise (fun a b => a.relevance_score ≠ b.relevance_score)) :
    sortThemesByRelevance ts1 = sortThemesByRelevance ts2 := by
  have p1 : (sortThemesByRelevance ts1).Perm ts1 := List.perm_insertionSort _ _
  have p2 : (sortThemesByRelevance ts2).Perm ts2 := List.perm_insertionSort _ _
  have p : (sortThemesByRelevance ts1).Perm (sortThemesByRelevance ts2) :=
    p1.trans (hperm.trans p2.symm)
  have d1 : (sortThemesByRelevance ts1).Pairwise
      (fun a b => a.relevance_score ≠ b.relevance_score) :=
    (p1.pairwise_iff (fun h => Ne.symm h)).mpr hdist
  have d2 : (sortThemesByRelevance ts2).Pairwise
      (fun a b => a.relevance_score ≠ b.relevance_score) :=
    (p2.pairwise_iff (fun h => Ne.symm h)).mpr
      ((hperm.pairwise_iff (fun h => Ne.symm h)).mp hdist)
  have s1 : List.Sorted byRelevanceDesc (sortThemesByRelevance ts1) :=
    List.sorted_insertionSort _ _
  have s2 : List.Sorted byRelevanceDesc (sortThemesByRelevance ts2) :=
    List.sorted_insertionSort _ _
  have s1s : List.Sorted byRelevanceStrict (sortThemesByRelevance ts1) :=
    (List.Pairwise.and s1 d1).imp
      (fun h => lt_of_le_of_ne h.1 (Ne.symm h.2))
  have s2s : List.Sorted byRelevanceStrict (sortThemesByRelevance ts2) :=
    (List.Pairwise.and s2 d2).imp
      (fun h => lt_of_le_of_ne h.1 (Ne.symm h.2))
  exact List.eq_of_perm_of_sorted p s1s s2s

/-- Counterexample to claim C4 as stated: with two themes tied on
relevance_score, permuting the input changes the greedy cluster partition,
so sorting by relevance_score descending alone does not make clustering
independent of the iteration order. -/
theorem c4_cluster_determinism_counterexample :
    ([themeB, themeA, themeC].Perm [themeA, themeB, themeC]) ∧
    clusterThemes canJoinW [themeA, themeB, themeC] ≠
      clusterThemes canJoinW [themeB, themeA, themeC] ∧
    mkThemeClusters canJoinW [themeA, themeB, themeC] ≠
      mkThemeClusters canJoinW [themeB, themeA, themeC] := by
  refine ⟨List.Perm.swap themeA themeB [themeC], ?_, ?_⟩ <;> decide

/-- Claim C4 (amended): when the themes carry pairwise-distinct relevance
scores, greedy clustering is permutation-invariant: any reordering of the
input list yields the identical cluster partition, because the
relevance-descending sort then fully determines the assignment order. -/
theorem c4_cluster_determinism_amended (canJoin : Theme → List Theme → Bool)
    (ts1 ts2 : List Theme) (hperm : ts1.Perm ts2)
    (hdist : ts1.Pairwise (fun a b => a.relevance_score ≠ b.relevance_score)) :
    clusterThemes canJoin ts1 = clusterThemes canJoin ts2 ∧
    mkThemeClusters canJoin ts1 = mkThemeClusters canJoin ts2 := by
  have hsorteq := sortThemesByRelevance_perm_eq hperm hdist
  constructor
  · unfold clusterThemes
    rw [hsorteq]
  · unfold mkThemeClusters clusterThemes
    rw [hsorteq]

/-- Witness for the amended claim C4 on a concrete permuted pair of theme
lists with distinct relevance scores. -/
theorem c4_cluster_determinism_amended_witness :
    clusterThemes canJoinW [themeC, themeA] = clusterThemes canJoinW [themeA, themeC] ∧
    mkThemeClusters canJoinW [themeC, themeA] = mkThemeClusters canJoinW [themeA, themeC] :=
  c4_cluster_determinism_amended canJoinW [themeC, themeA] [themeA, themeC]
    (List.Perm.swap themeA themeC []) (by decide)

end AgentScholar
